import Mathlib

/-!
Shallow embedding of the Qubee hybrid post-quantum ratchet core.

Byte strings are modelled as `List Nat` (each element standing for one `u8`;
the claims settled here never depend on byte-level truncation).  The external
cryptographic crates (blake3, hkdf/sha2, chacha20poly1305, x25519-dalek,
pqcrypto kyber768/dilithium2, the double_ratchet crate) are not part of the
repository; they are abstracted as fields of a primitive-suite structure, and
a concrete executable toy suite instantiates them for evaluation at concrete
inputs.  Randomness drawn from OsRng inside a function is passed in as an
explicit argument.  Mutation through &mut self is modelled by returning the
post-call state next to the result, so state changes on error paths stay
observable.
-/

set_option linter.unusedVariables false
set_option maxRecDepth 100000

namespace Qubee

abbrev Bytes := List Nat

def strBytes (s : String) : Bytes := s.data.map Char.toNat

/-! ## Ephemeral key pinning registry (src/ephemeral_keys.rs)

The Rust `EphemeralKeyStore` is `Arc<Mutex<HashMap<String, Vec<u8>>>>`; a
single locked call is modelled as a pure function on an association list
(only keyed get/insert are performed, so list order is irrelevant to lookup).
-/

abbrev EphemeralKeyStore := List (String × Bytes)

def storeLookup (st : EphemeralKeyStore) (k : String) : Option Bytes :=
  (st.find? (fun p => decide (p.1 = k))).map (fun p => p.2)

inductive EphError where
  | ephemeralKeyMismatch
  deriving DecidableEq

/-- Embedding of `verify_and_pin_ephemeral_key` (src/ephemeral_keys.rs lines
7-23): on a missing entry the candidate is inserted (trust on first use);
on a present equal entry nothing changes; on a present different entry the
call fails with the mismatch error and the store is untouched. -/
def verify_and_pin_ephemeral_key (st : EphemeralKeyStore) (sender_id : String)
    (ephemeral_pk : Bytes) : Except EphError Unit × EphemeralKeyStore :=
  match storeLookup st sender_id with
  | some stored =>
      if stored ≠ ephemeral_pk then (Except.error EphError.ephemeralKeyMismatch, st)
      else (Except.ok (), st)
  | none => (Except.ok (), st ++ [(sender_id, ephemeral_pk)])

/-! ## Enhanced hybrid ratchet (src/src/crypto/enhanced_ratchet.rs) -/

/-- Abstract suite of the external cryptographic primitives used by
`EnhancedHybridRatchet`.  `iterNext` models `skipped_keys.iter().next()` on
`std::collections::HashMap`: with the randomized default hasher the iteration
order is unspecified, so any function choosing one of the present entries is
an admissible behaviour of the compiled program. -/
structure Prims where
  blake3 : Bytes → Bytes
  hkdfExpand : Bytes → Bytes → Bytes → Bytes
  dh : Bytes → Bytes → Bytes
  aeadEnc : Bytes → Bytes → Bytes → Bytes
  aeadDec : Bytes → Bytes → Bytes → Option Bytes
  iterNext : List ((Nat × Nat) × Bytes) → Option (Nat × Nat)

inductive RatchetState where
  | Uninitialized
  | Initialized
  | KeyExchanged
  | Active
  | Compromised
  deriving DecidableEq

structure MessageId where
  chain_id : Nat
  message_number : Nat
  deriving DecidableEq

structure MessageHeader where
  dh_public_key : Option Bytes
  pq_public_key : Option Bytes
  previous_chain_length : Nat
  message_number : Nat
  timestamp : Nat
  deriving DecidableEq

structure RatchetMessage where
  header : MessageHeader
  ciphertext : Bytes
  mac : Bytes
  deriving DecidableEq

/-- Session state of `EnhancedHybridRatchet` (struct fields, lines 18-50).
Counters are `u64` in the source; they are only incremented and compared
here, far below the wrap bound, so plain `Nat` is used. -/
structure EnhancedHybridRatchet where
  root_key : Bytes
  dh_send_key : Option Bytes
  dh_recv_key : Option Bytes
  pq_send_key : Option Bytes
  pq_recv_key : Option Bytes
  send_chain_key : Option Bytes
  recv_chain_key : Option Bytes
  send_counter : Nat
  recv_counter : Nat
  skipped_keys : List (MessageId × Bytes)
  max_skip : Nat
  max_cache : Nat
  state : RatchetState
  deriving DecidableEq

inductive RatchetError where
  | alreadyInitialized
  | ratchetNotReady
  | macVerificationFailed
  | replayDetected
  | noSendChain
  | noRecvChain
  | tooManySkipped
  | ciphertextTooShort
  | decryptionFailed
  deriving DecidableEq

instance {ε α : Type} [DecidableEq ε] [DecidableEq α] : DecidableEq (Except ε α) :=
  fun a b =>
    match a, b with
    | Except.error x, Except.error y =>
        if h : x = y then isTrue (by rw [h])
        else isFalse (by intro hh; cases hh; exact h rfl)
    | Except.ok x, Except.ok y =>
        if h : x = y then isTrue (by rw [h])
        else isFalse (by intro hh; cases hh; exact h rfl)
    | Except.error _, Except.ok _ => isFalse (by intro h; cases h)
    | Except.ok _, Except.error _ => isFalse (by intro h; cases h)

def EnhancedHybridRatchet.CHAIN_KEY_CONSTANT : Bytes := strBytes "qubee_chain_key"

def EnhancedHybridRatchet.MESSAGE_KEY_CONSTANT : Bytes := strBytes "qubee_message_key"

/-- `EnhancedHybridRatchet::new` (lines 90-106). -/
def EnhancedHybridRatchet.new : EnhancedHybridRatchet :=
  { root_key := List.replicate 32 0
    dh_send_key := none
    dh_recv_key := none
    pq_send_key := none
    pq_recv_key := none
    send_chain_key := none
    recv_chain_key := none
    send_counter := 0
    recv_counter := 0
    skipped_keys := []
    max_skip := 1000
    max_cache := 100
    state := RatchetState.Uninitialized }

/-- `kdf_rk` (lines 330-343): HKDF-SHA256 with the current root key as salt
and the DH/PQ output as input keying material, expanded under the two labels. -/
def kdf_rk (P : Prims) (root_key dh_output : Bytes) : Bytes × Bytes :=
  (P.hkdfExpand root_key dh_output (strBytes "qubee_root_key"),
   P.hkdfExpand root_key dh_output (strBytes "qubee_chain_key"))

/-- `kdf_ck` (lines 346-364): two domain-separated blake3 evaluations of the
chain key, truncated to 32 bytes. -/
def kdf_ck (P : Prims) (chain_key : Bytes) : Bytes × Bytes :=
  ((P.blake3 (chain_key ++ EnhancedHybridRatchet.CHAIN_KEY_CONSTANT)).take 32,
   (P.blake3 (chain_key ++ EnhancedHybridRatchet.MESSAGE_KEY_CONSTANT)).take 32)

/-- `derive_root_key` (lines 420-432). -/
def derive_root_key (P : Prims) (shared_secret : Bytes) : Bytes :=
  (P.blake3 (shared_secret ++ strBytes "qubee_root_key_derivation")).take 32

/-- `combine_shared_secrets` (lines 434-445). -/
def combine_shared_secrets (P : Prims) (dh_secret pq_secret : Bytes) : Bytes :=
  (P.blake3 (dh_secret ++ pq_secret ++ strBytes "qubee_hybrid_kdf")).take 32

/-- `compute_mac` (lines 447-458): blake3 over root key, header bytes and
ciphertext, truncated to 16 bytes. -/
def compute_mac (P : Prims) (root_key header ciphertext : Bytes) : Bytes :=
  (P.blake3 (root_key ++ header ++ ciphertext)).take 16

/-- Little-endian 8-byte encoding of a `u64`, used by the header serializer. -/
def natLE8 (n : Nat) : Bytes :=
  (List.range 8).map (fun i => n / 256 ^ i % 256)

def serOptBytes : Option Bytes → Bytes
  | none => [0]
  | some b => 1 :: (natLE8 b.length ++ b)

/-- Deterministic injective stand-in for `bincode::serialize(&header)`: the
claims depend only on the serializer being a function of the header. -/
def serHeader (h : MessageHeader) : Bytes :=
  serOptBytes h.dh_public_key ++ serOptBytes h.pq_public_key ++
    natLE8 h.previous_chain_length ++ natLE8 h.message_number ++ natLE8 h.timestamp

/-- `initialize_sender` (lines 109-150).  `fresh_dh_sk` stands for the
`StaticSecret` drawn from OsRng and `pq_shared_secret` for the shared secret
produced by `kyber768::encapsulate` (whose ciphertext the source computes and
then discards).  Note the final state is `Initialized`. -/
def initialize_sender (P : Prims) (s : EnhancedHybridRatchet)
    (shared_secret remote_dh_key remote_pq_key fresh_dh_sk pq_shared_secret : Bytes) :
    Except RatchetError Unit × EnhancedHybridRatchet :=
  if s.state ≠ RatchetState.Uninitialized then
    (Except.error RatchetError.alreadyInitialized, s)
  else
    let root0 := derive_root_key P shared_secret
    let dh_shared := P.dh fresh_dh_sk remote_dh_key
    let combined := combine_shared_secrets P dh_shared pq_shared_secret
    let rk := kdf_rk P root0 combined
    (Except.ok (),
     { s with
        root_key := rk.1
        send_chain_key := some rk.2
        dh_send_key := some fresh_dh_sk
        dh_recv_key := some remote_dh_key
        pq_recv_key := some remote_pq_key
        state := RatchetState.Initialized })

/-- `initialize_receiver` (lines 153-172). -/
def initialize_receiver (P : Prims) (s : EnhancedHybridRatchet)
    (shared_secret dh_keypair pq_keypair : Bytes) :
    Except RatchetError Unit × EnhancedHybridRatchet :=
  if s.state ≠ RatchetState.Uninitialized then
    (Except.error RatchetError.alreadyInitialized, s)
  else
    (Except.ok (),
     { s with
        root_key := derive_root_key P shared_secret
        dh_send_key := some dh_keypair
        pq_send_key := some pq_keypair
        state := RatchetState.Initialized })

/-- `dh_ratchet` (lines 285-307): no precondition on the current state; always
ends `Active` with a fresh send chain and a reset send counter.  The source
returns `Result<()>` but has no failing path. -/
def dh_ratchet (P : Prims) (s : EnhancedHybridRatchet)
    (remote_public_key fresh_dh_sk : Bytes) : EnhancedHybridRatchet :=
  let shared := P.dh fresh_dh_sk remote_public_key
  let rk := kdf_rk P s.root_key shared
  { s with
      root_key := rk.1
      send_chain_key := some rk.2
      dh_send_key := some fresh_dh_sk
      dh_recv_key := some remote_public_key
      send_counter := 0
      state := RatchetState.Active }

/-- `get_send_message_key` (lines 366-376). -/
def get_send_message_key (P : Prims) (s : EnhancedHybridRatchet) :
    Except RatchetError Bytes × EnhancedHybridRatchet :=
  match s.send_chain_key with
  | none => (Except.error RatchetError.noSendChain, s)
  | some ck =>
      let step := kdf_ck P ck
      (Except.ok step.2, { s with send_chain_key := some step.1 })

/-- One insertion into `skipped_keys` (lines 400-408): when the map already
holds at least `max_cache` entries, the entry returned by `iter().next()` is
removed first; then the new key is inserted. -/
def cacheInsert (P : Prims) (maxCache : Nat) (cache : List (MessageId × Bytes))
    (id : MessageId) (mk : Bytes) : List (MessageId × Bytes) :=
  let cache1 :=
    if maxCache ≤ cache.length then
      match P.iterNext (cache.map (fun p => ((p.1.chain_id, p.1.message_number), p.2))) with
      | some oid =>
          cache.filter (fun p => decide ((p.1.chain_id, p.1.message_number) ≠ oid))
      | none => cache
    else cache
  cache1.filter (fun p => decide (p.1 ≠ id)) ++ [(id, mk)]

/-- The `for i in 0..skip_count` loop of `get_recv_message_key` (lines
392-410): walk the chain forward, caching each intermediate message key under
`(chain_id = 0, recv_counter + 1 + i)`. -/
def skipLoop (P : Prims) (maxCache : Nat) :
    Nat → Nat → Bytes → List (MessageId × Bytes) → Bytes × List (MessageId × Bytes)
  | 0, _, ck, cache => (ck, cache)
  | Nat.succ k, idx, ck, cache =>
      let step := kdf_ck P ck
      skipLoop P maxCache k (idx + 1) step.1
        (cacheInsert P maxCache cache ⟨0, idx⟩ step.2)

/-- `get_recv_message_key` (lines 378-418).  `message_number.saturating_sub`
on `u64` coincides with truncated `Nat` subtraction. -/
def get_recv_message_key (P : Prims) (s : EnhancedHybridRatchet)
    (message_number : Nat) : Except RatchetError Bytes × EnhancedHybridRatchet :=
  match s.recv_chain_key with
  | none => (Except.error RatchetError.noRecvChain, s)
  | some ck =>
      let skip_count := message_number - (s.recv_counter + 1)
      if s.max_skip < skip_count then (Except.error RatchetError.tooManySkipped, s)
      else
        let walked := skipLoop P s.max_cache skip_count (s.recv_counter + 1) ck s.skipped_keys
        let fin := kdf_ck P walked.1
        (Except.ok fin.2,
         { s with recv_chain_key := some fin.1, skipped_keys := walked.2 })

/-- `encrypt` (lines 175-226).  The fresh 12-byte AEAD nonce and the wall
clock timestamp are passed in explicitly.  As in the source, the nonce is
prepended to the plaintext inside the AEAD payload and never placed in the
envelope outside the ciphertext, the associated data is assembled but not
passed to the cipher, and the header's `dh_public_key` is
`dh_send_key.map(|sk| sk.diffie_hellman([9u8; 32]))`. -/
def EnhancedHybridRatchet.encrypt (P : Prims) (s : EnhancedHybridRatchet)
    (plaintext associated_data nonce : Bytes) (timestamp : Nat) :
    Except RatchetError RatchetMessage × EnhancedHybridRatchet :=
  if s.state ≠ RatchetState.Active ∧ s.state ≠ RatchetState.KeyExchanged then
    (Except.error RatchetError.ratchetNotReady, s)
  else
    let got := get_send_message_key P s
    match got.1 with
    | Except.error e => (Except.error e, got.2)
    | Except.ok message_key =>
        let s1 := got.2
        let header : MessageHeader :=
          { dh_public_key := s1.dh_send_key.map (fun sk => P.dh sk (List.replicate 32 9))
            pq_public_key := none
            previous_chain_length := 0
            message_number := s1.send_counter
            timestamp := timestamp }
        let header_bytes := serHeader header
        let payload := nonce ++ plaintext
        let ciphertext := P.aeadEnc message_key nonce payload
        let mac := compute_mac P s1.root_key header_bytes ciphertext
        (Except.ok { header := header, ciphertext := ciphertext, mac := mac },
         { s1 with send_counter := s1.send_counter + 1 })

/-- `HashMap::remove(&message_id)` on the skipped-key cache. -/
def assocRemove (l : List (MessageId × Bytes)) (k : MessageId) :
    Option (Bytes × List (MessageId × Bytes)) :=
  match l.find? (fun p => decide (p.1 = k)) with
  | none => none
  | some p => some (p.2, l.filter (fun q => decide (q.1 ≠ k)))

/-- `decrypt` (lines 229-282): MAC check first, then the replay check
`message_number <= recv_counter`, then the skipped-key cache lookup or the
forward chain walk, then the AEAD decryption whose nonce is read back from
the first 12 bytes of the stored ciphertext; `recv_counter` advances only on
success.  The associated data is assembled in the source but not passed to
the cipher. -/
def EnhancedHybridRatchet.decrypt (P : Prims) (s : EnhancedHybridRatchet)
    (m : RatchetMessage) (associated_data : Bytes) :
    Except RatchetError Bytes × EnhancedHybridRatchet :=
  let header_bytes := serHeader m.header
  let expected_mac := compute_mac P s.root_key header_bytes m.ciphertext
  if m.mac ≠ expected_mac then (Except.error RatchetError.macVerificationFailed, s)
  else if m.header.message_number ≤ s.recv_counter then
    (Except.error RatchetError.replayDetected, s)
  else
    let mid : MessageId := ⟨0, m.header.message_number⟩
    let step :=
      match assocRemove s.skipped_keys mid with
      | some hit => (Except.ok hit.1, { s with skipped_keys := hit.2 })
      | none => get_recv_message_key P s m.header.message_number
    match step.1 with
    | Except.error e => (Except.error e, step.2)
    | Except.ok message_key =>
        let s1 := step.2
        if m.ciphertext.length < 12 then
          (Except.error RatchetError.ciphertextTooShort, s1)
        else
          let nonce := m.ciphertext.take 12
          let body := m.ciphertext.drop 12
          match P.aeadDec message_key nonce body with
          | none => (Except.error RatchetError.decryptionFailed, s1)
          | some pt => (Except.ok pt, { s1 with recv_counter := m.header.message_number })

/-- `mark_compromised` (lines 471-479): flips the state and zeroizes or drops
the secret material, leaving the counters in place. -/
def mark_compromised (s : EnhancedHybridRatchet) : EnhancedHybridRatchet :=
  { s with
      state := RatchetState.Compromised
      root_key := s.root_key.map (fun _ => 0)
      send_chain_key := none
      recv_chain_key := none
      skipped_keys := [] }

/-- `is_active` (lines 482-484). -/
def EnhancedHybridRatchet.is_active (s : EnhancedHybridRatchet) : Bool :=
  s.state = RatchetState.Active ∨ s.state = RatchetState.KeyExchanged


/-! ## A concrete executable primitive suite

Used to evaluate the embedded operations at concrete inputs.  `toyHash` is a
stand-in for blake3 (32-byte digest), `toyHkdf` for HKDF-SHA256 expansion,
`toyDh` for x25519, and the toy AEAD is a correct authenticated scheme for
this model: decryption succeeds exactly when key and nonce match the ones
used at encryption, returning the original payload. -/

def toyHash (l : Bytes) : Bytes :=
  let h := l.foldl (fun a b => (a * 31 + b + 1) % 1000003) 7
  (List.range 32).map (fun i => (h + 131 * i) % 256)

def toyHkdf (salt ikm info : Bytes) : Bytes :=
  toyHash (salt ++ [255] ++ ikm ++ [254] ++ info)

def toyDh (sk pk : Bytes) : Bytes :=
  toyHash (sk ++ [253] ++ pk)

def toyAeadEnc (key nonce pt : Bytes) : Bytes := key ++ nonce ++ pt

def toyAeadDec (key nonce ct : Bytes) : Option Bytes :=
  if ct.take 32 = key ∧ (ct.drop 32).take 12 = nonce then some ((ct.drop 32).drop 12)
  else none

def toyPrims : Prims :=
  { blake3 := toyHash
    hkdfExpand := toyHkdf
    dh := toyDh
    aeadEnc := toyAeadEnc
    aeadDec := toyAeadDec
    iterNext := fun l => (l.head?).map (fun p => p.1) }

/-- Same toy suite except that the HashMap iteration oracle yields the most
recently inserted entry first; equally admissible for the unordered
`std::collections::HashMap`. -/
def toyPrimsLast : Prims :=
  { toyPrims with iterNext := fun l => (l.getLast?).map (fun p => p.1) }

/-! ## Concrete session material for evaluation -/

def ssA : Bytes := List.replicate 32 1
def bobDhPk : Bytes := List.replicate 32 2
def bobPqPk : Bytes := List.replicate 32 3
def aliceDhSk : Bytes := List.replicate 32 4
def pqSharedA : Bytes := List.replicate 32 5
def bobDhSk : Bytes := List.replicate 32 6
def bobPqSk : Bytes := List.replicate 32 7
def nonceA : Bytes := List.replicate 12 8
def helloBytes : Bytes := [104, 101, 108, 108, 111]

def aliceInit := initialize_sender toyPrims EnhancedHybridRatchet.new ssA bobDhPk bobPqPk aliceDhSk pqSharedA
def alice1 : EnhancedHybridRatchet := aliceInit.2
def alice2 : EnhancedHybridRatchet := dh_ratchet toyPrims alice1 bobDhPk (List.replicate 32 10)
def encA := EnhancedHybridRatchet.encrypt toyPrims alice2 helloBytes [] nonceA 1000
def emptyHeader : MessageHeader :=
  { dh_public_key := none
    pq_public_key := none
    previous_chain_length := 0
    message_number := 0
    timestamp := 0 }
def msgA : RatchetMessage :=
  (encA.1.toOption).getD { header := emptyHeader, ciphertext := [], mac := [] }
def bobInit := initialize_receiver toyPrims EnhancedHybridRatchet.new ssA bobDhSk bobPqSk
def bob1 : EnhancedHybridRatchet := bobInit.2

def rootR : Bytes := List.replicate 32 11
def ck0 : Bytes := List.replicate 32 12
def recv0 : EnhancedHybridRatchet :=
  { EnhancedHybridRatchet.new with
      root_key := rootR, recv_chain_key := some ck0, state := RatchetState.Active }
def nonceN : Bytes := List.replicate 12 13
def ck1 : Bytes := (kdf_ck toyPrims ck0).1
def mk1 : Bytes := (kdf_ck toyPrims ck0).2
def ck2 : Bytes := (kdf_ck toyPrims ck1).1
def mk2 : Bytes := (kdf_ck toyPrims ck1).2
def ck3 : Bytes := (kdf_ck toyPrims ck2).1
def mk3 : Bytes := (kdf_ck toyPrims ck2).2

/-- Build a wire message whose MAC is valid for root key `root` and whose
ciphertext decrypts (under the source's read-the-nonce-back-from-the-first-12-
bytes convention) to `pt` under message key `mk`. -/
def mkMsg (root : Bytes) (num : Nat) (mk pt : Bytes) : RatchetMessage :=
  let h : MessageHeader := { emptyHeader with message_number := num }
  let c := nonceN ++ toyAeadEnc mk nonceN pt
  { header := h, ciphertext := c, mac := compute_mac toyPrims root (serHeader h) c }

def msgOne : RatchetMessage := mkMsg rootR 1 mk1 [21]
def msgTwo : RatchetMessage := mkMsg rootR 2 mk2 [22]
def msgThree : RatchetMessage := mkMsg rootR 3 mk3 [23]

def recvA := EnhancedHybridRatchet.decrypt toyPrims recv0 msgOne []
def recvB := EnhancedHybridRatchet.decrypt toyPrims recvA.2 msgThree []
def recvC := EnhancedHybridRatchet.decrypt toyPrims recvB.2 msgTwo []

/-! ## Hybrid ratchet and secure message codec
(src/src/hybrid_ratchet.rs, src/src/secure_message.rs)

`HybridRatchet` wraps the external `double_ratchet::Ratchet`, whose opaque
state is modelled as a byte blob driven by abstract `drSend`/`drRecv`/
`drRootKey` functions.  `dilithiumKeypair` maps one draw of OsRng randomness
to the tuple returned by `dilithium2::keypair()`; the source calls it twice
per message, taking component `.0` of the first call as the signing key and
component `.1` of the second call as the transmitted public key. -/

structure MsgPrims where
  drSend : Bytes → Nat → Bytes × Nat × Bytes
  drRecv : Bytes → Bytes → Option Bytes
  drRootKey : Bytes → Bytes
  hkdfExpand : Bytes → Bytes → Bytes → Bytes
  aeadEnc : Bytes → Bytes → Bytes → Bytes
  aeadDec : Bytes → Bytes → Bytes → Option Bytes
  kyberEncaps : Bytes → Nat → Bytes × Bytes
  kyberDecaps : Bytes → Bytes → Option Bytes
  dilithiumKeypair : Nat → Bytes × Bytes
  dilithiumSign : Bytes → Bytes → Bytes
  pkParses : Bytes → Bool
  sigParses : Bytes → Bool
  dilithiumVerify : Bytes → Bytes → Bytes → Bool

/-- State of `HybridRatchet` (src/src/hybrid_ratchet.rs lines 13-20);
`send_ctr` is a `u32` incremented with `wrapping_add`. -/
structure HybridRatchet where
  dr : Bytes
  pq_pk : Bytes
  pq_sk : Bytes
  pq_shared : Bytes
  send_ctr : Nat
  deriving DecidableEq

def PQ_REKEY_PERIOD : Nat := 1

/-- `HybridRatchet::pq_reencap` (lines 36-40): encapsulate against the remote
key, store the fresh shared secret, return the KEM ciphertext. -/
def HybridRatchet.pq_reencap (P : MsgPrims) (r : HybridRatchet) (remote_pk : Bytes)
    (rand : Nat) : Bytes × HybridRatchet :=
  let enc := P.kyberEncaps remote_pk rand
  (enc.1, { r with pq_shared := enc.2 })

/-- `HybridRatchet::pq_decaps` (lines 42-47): parse the KEM ciphertext (the
only failing step) and store the decapsulated shared secret. -/
def HybridRatchet.pq_decaps (P : MsgPrims) (r : HybridRatchet) (ct : Bytes) :
    Option HybridRatchet :=
  (P.kyberDecaps ct r.pq_sk).map (fun ss => { r with pq_shared := ss })

/-- `HybridRatchet::derive_root_key` (lines 49-54): HKDF-SHA256 with the PQ
shared secret as salt and the double-ratchet root key as input keying
material, expanded under the hybrid_root label. -/
def HybridRatchet.derive_root_key (P : MsgPrims) (r : HybridRatchet) : Bytes :=
  P.hkdfExpand r.pq_shared (P.drRootKey r.dr) (strBytes "hybrid_root")

structure SecureMsg where
  header : Bytes
  nonce : Bytes
  body : Bytes
  pq_ct : Option Bytes
  is_dummy : Bool
  ephemeral_pk : Bytes
  ephemeral_sig : Bytes
  deriving DecidableEq

/-- `SecureMsg::encrypt` (src/src/secure_message.rs lines 26-66).  The fresh
AEAD nonce and the randomness of the two `dilithium2::keypair()` calls and of
the Kyber encapsulation are explicit arguments.  With `PQ_REKEY_PERIOD = 1`
the re-encapsulation branch is taken on every message.  `identity_sk` is a
parameter of the source function that its body never uses. -/
def SecureMsg.encrypt (P : MsgPrims) (r : HybridRatchet) (peer_pq_pk identity_sk plaintext : Bytes)
    (is_dummy : Bool) (nonce : Bytes) (randEph1 randEph2 randPq : Nat) :
    SecureMsg × HybridRatchet :=
  let sent := P.drSend r.dr plaintext.length
  let r1 := { r with dr := sent.2.2, send_ctr := (r.send_ctr + 1) % 4294967296 }
  let pqStep :=
    if r1.send_ctr % PQ_REKEY_PERIOD = 0 then
      let enc := HybridRatchet.pq_reencap P r1 peer_pq_pk randPq
      (some enc.1, enc.2)
    else (none, r1)
  let r2 := pqStep.2
  let ephemeral_sk := (P.dilithiumKeypair randEph1).1
  let ephemeral_pk := (P.dilithiumKeypair randEph2).2
  let root := HybridRatchet.derive_root_key P r2
  let flagged_plaintext := (if is_dummy then 1 else 0) :: plaintext
  let ciphertext := P.aeadEnc root nonce flagged_plaintext
  let signature := P.dilithiumSign ciphertext ephemeral_sk
  ({ header := sent.1
     nonce := nonce
     body := ciphertext
     pq_ct := pqStep.1
     is_dummy := is_dummy
     ephemeral_pk := ephemeral_pk
     ephemeral_sig := signature }, r2)

inductive DecError where
  | badPqCiphertext
  | drRecvFailed
  | aeadFailed
  | badEphemeralPk
  | badEphemeralSig
  | sigVerifyFailed
  | ephemeralKeyMismatch
  deriving DecidableEq

/-- Outcome of `SecureMsg::decrypt`: a returned `Ok(Option<Vec<u8>>)`, a
returned error, or the unhandled `decrypted[0]` index-out-of-bounds abort. -/
inductive DecOutcome where
  | ok (res : Option Bytes)
  | err (e : DecError)
  | indexOutOfBounds
  deriving DecidableEq

/-- `SecureMsg::decrypt` (src/src/secure_message.rs lines 68-100): optional
PQ decapsulation, double-ratchet header receive, AEAD decryption under the
derived hybrid root key, ephemeral key/signature parsing and verification,
TOFU pinning, then `decrypted[0]` is read without a length check before the
dummy flag decides between `Ok(None)` and `Ok(Some(payload))`. -/
def SecureMsg.decrypt (P : MsgPrims) (r : HybridRatchet) (msg : SecureMsg)
    (sender_id : String) (ephemeral_store : EphemeralKeyStore) :
    DecOutcome × HybridRatchet × EphemeralKeyStore :=
  match (match msg.pq_ct with
         | some ct => HybridRatchet.pq_decaps P r ct
         | none => some r) with
  | none => (DecOutcome.err DecError.badPqCiphertext, r, ephemeral_store)
  | some r1 =>
    match P.drRecv r1.dr msg.header with
    | none => (DecOutcome.err DecError.drRecvFailed, r1, ephemeral_store)
    | some dr2 =>
      let r2 := { r1 with dr := dr2 }
      let root := HybridRatchet.derive_root_key P r2
      match P.aeadDec root msg.nonce msg.body with
      | none => (DecOutcome.err DecError.aeadFailed, r2, ephemeral_store)
      | some decrypted =>
        if ¬ P.pkParses msg.ephemeral_pk then
          (DecOutcome.err DecError.badEphemeralPk, r2, ephemeral_store)
        else if ¬ P.sigParses msg.ephemeral_sig then
          (DecOutcome.err DecError.badEphemeralSig, r2, ephemeral_store)
        else if ¬ P.dilithiumVerify msg.body msg.ephemeral_sig msg.ephemeral_pk then
          (DecOutcome.err DecError.sigVerifyFailed, r2, ephemeral_store)
        else
          let pinned := verify_and_pin_ephemeral_key ephemeral_store sender_id msg.ephemeral_pk
          match pinned.1 with
          | Except.error _ => (DecOutcome.err DecError.ephemeralKeyMismatch, r2, pinned.2)
          | Except.ok _ =>
            match decrypted with
            | [] => (DecOutcome.indexOutOfBounds, r2, pinned.2)
            | d0 :: rest =>
              if d0 ≠ 0 then (DecOutcome.ok none, r2, pinned.2)
              else (DecOutcome.ok (some rest), r2, pinned.2)

/-! ## Concrete material for the secure message codec -/

def toyMsgPrims : MsgPrims :=
  { drSend := fun st len => (st ++ [len % 256], 32, st ++ [1])
    drRecv := fun st h => some (st ++ h)
    drRootKey := fun st => toyHash st
    hkdfExpand := toyHkdf
    aeadEnc := toyAeadEnc
    aeadDec := toyAeadDec
    kyberEncaps := fun pk rand => (pk ++ [rand % 256], toyHash (pk ++ [rand % 256]))
    kyberDecaps := fun ct sk => some (toyHash (ct ++ sk))
    dilithiumKeypair := fun rand => ([rand % 256], [rand % 256, 1])
    dilithiumSign := fun m sk => toyHash (m ++ sk)
    pkParses := fun _ => true
    sigParses := fun _ => true
    dilithiumVerify := fun m sig pk => sig = toyHash (m ++ pk) }

def hr0 : HybridRatchet :=
  { dr := [1, 2], pq_pk := [3], pq_sk := [4], pq_shared := List.replicate 32 5, send_ctr := 0 }

def hdr9 : Bytes := [9]

def rootD : Bytes :=
  HybridRatchet.derive_root_key toyMsgPrims { hr0 with dr := hr0.dr ++ hdr9 }

def nonceD : Bytes := List.replicate 12 6

/-- Envelope whose body AEAD-decrypts to the empty byte string and whose toy
signature is invalid. -/
def msgEmptyBadSig : SecureMsg :=
  { header := hdr9, nonce := nonceD, body := toyAeadEnc rootD nonceD [], pq_ct := none,
    is_dummy := false, ephemeral_pk := [7], ephemeral_sig := [8] }

/-- Same envelope with a valid toy signature. -/
def msgEmptyGoodSig : SecureMsg :=
  { msgEmptyBadSig with ephemeral_sig := toyHash (toyAeadEnc rootD nonceD [] ++ [7]) }

/-! ## Remaining concrete states for the enhanced ratchet claims -/

/-- Envelope with a valid MAC for root `rootR` at message number 2 whose AEAD
decryption fails. -/
def mBad : RatchetMessage :=
  let h : MessageHeader := { emptyHeader with message_number := 2 }
  let c := List.replicate 20 0
  { header := h, ciphertext := c, mac := compute_mac toyPrims rootR (serHeader h) c }

def recvBad := EnhancedHybridRatchet.decrypt toyPrims recv0 mBad []

/-- Envelope with a valid MAC at the already-consumed message number 0. -/
def mReplay : RatchetMessage := mkMsg rootR 0 mk1 [21]

def compromised0 : EnhancedHybridRatchet := mark_compromised recv0

def resurrected : EnhancedHybridRatchet :=
  dh_ratchet toyPrims compromised0 bobDhPk (List.replicate 32 14)

def encB := EnhancedHybridRatchet.encrypt toyPrims encA.2 [21] [] nonceN 1001

/-- Receiver about to process message number 103 with an empty cache. -/
def cacheState : EnhancedHybridRatchet :=
  { EnhancedHybridRatchet.new with
      root_key := rootR, recv_chain_key := some ck0, state := RatchetState.Active }

def evictRun := get_recv_message_key toyPrimsLast cacheState 103

/-! ## Claim theorems -/

/-- Claim C1 (code_bug): the round trip fails on the code.  With the toy
primitive suite and fixed randomness, a freshly `initialize_sender`-ed
session cannot even encrypt (its state is `Initialized`), and after forcing
the sender usable via a DH ratchet step, the envelope of b"hello" is rejected
by the receiver (initialized from the same pre-shared secret) at the very
first check, because the two sides' root keys have diverged; `decrypt`
returns a MAC failure, never `Some(P)`. -/
theorem c1_roundtrip_fails :
    aliceInit.1 = Except.ok () ∧
    (EnhancedHybridRatchet.encrypt toyPrims alice1 helloBytes [] nonceA 1000).1 =
      Except.error RatchetError.ratchetNotReady ∧
    encA.1 = Except.ok msgA ∧
    bobInit.1 = Except.ok () ∧
    (EnhancedHybridRatchet.decrypt toyPrims bob1 msgA []).1 =
      Except.error RatchetError.macVerificationFailed := by
  refine ⟨by decide, by decide, by decide, by decide, by decide⟩

/-- Claim C2 (code_bug): delivering messages 1, 3, 2 in that order, messages
1 and 3 decrypt and message 2's key is cached under `(0, 2)`, but the
delivery of message 2 is rejected as `ReplayDetected` by the
`message_number <= recv_counter` check, which runs before the skipped-key
cache lookup; the cached key is never consulted and the state is returned
unchanged. -/
theorem c2_out_of_order_rejected :
    recvA.1 = Except.ok [21] ∧
    recvB.1 = Except.ok [23] ∧
    recvB.2.skipped_keys.map (fun p => p.1) = [⟨0, 2⟩] ∧
    recvC.1 = Except.error RatchetError.replayDetected ∧
    recvC.2 = recvB.2 := by
  refine ⟨by decide, by decide, by decide, by decide, by decide⟩

/-- Claim C3 counterexample: an envelope with a valid MAC at message number 2
whose AEAD decryption fails makes `decrypt` return a cryptographic
verification failure (`decryptionFailed`, the AEAD tag case) while the
returned session differs from the input: the receive chain was advanced and
the skipped key for message 1 was cached before the AEAD check ran. -/
theorem c3_counterexample :
    recvBad.1 = Except.error RatchetError.decryptionFailed ∧
    recvBad.2 ≠ recv0 ∧
    recvBad.2.skipped_keys.map (fun p => p.1) = [⟨0, 1⟩] ∧
    recvBad.2.recv_chain_key ≠ recv0.recv_chain_key := by
  refine ⟨by decide, by decide, by decide, by decide⟩

/-- Claim C4 counterexample: `mark_compromised` is not terminal — a
subsequent `dh_ratchet` call (which checks no precondition) moves the session
from `Compromised` straight back to `Active`. -/
theorem c4_counterexample :
    compromised0.state = RatchetState.Compromised ∧
    resurrected.state = RatchetState.Active := by
  exact ⟨rfl, rfl⟩

/-- Claim C5 counterexample: a successful `initialize_sender` (which does
create the first send chain key) leaves the session in state `Initialized`,
not `Active` or `KeyExchanged`, and the following encrypt call fails with
the ratchet-not-ready error. -/
theorem c5_counterexample :
    aliceInit.1 = Except.ok () ∧
    alice1.state = RatchetState.Initialized ∧
    alice1.send_chain_key.isSome = true ∧
    (EnhancedHybridRatchet.encrypt toyPrims alice1 helloBytes [] nonceA 1000).1 =
      Except.error RatchetError.ratchetNotReady := by
  refine ⟨by decide, by decide, by decide, by decide⟩

/-- Claim C6 counterexample: two consecutive encrypt calls with no DH
ratchet step in between both embed `Some(..)` in the header's
`dh_public_key` field; the second message is not a ratchet-step message,
yet its header still carries a key. -/
theorem c6_counterexample :
    encA.1.toOption.map (fun m => m.header.dh_public_key.isSome) = some true ∧
    encB.1.toOption.map (fun m => m.header.dh_public_key.isSome) = some true := by
  refine ⟨by decide, by decide⟩

/-- Claim C7 (code_bug): eviction of the skipped-key cache is not FIFO.
Under an admissible HashMap iteration order that yields the most recently
inserted entry first, processing message number 103 from counter 0 with
capacity 100 caches keys 1..100, then evicts entries 100 and 101 — the two
newest — while the oldest entry 1 survives; FIFO would have evicted 1 and 2.
The size bound itself holds: the cache ends at exactly 100 entries. -/
theorem c7_eviction_not_fifo :
    evictRun.1.isOk = true ∧
    evictRun.2.skipped_keys.length = 100 ∧
    evictRun.2.skipped_keys.map (fun p => p.1.message_number) =
      (List.range 99).map (fun i => i + 1) ++ [102] := by
  refine ⟨by decide, by decide, by decide⟩

/-- Helper: a key absent from the store is found after being appended. -/
theorem storeLookup_append_self (st : EphemeralKeyStore) (sid : String) (key : Bytes)
    (h : storeLookup st sid = none) :
    storeLookup (st ++ [(sid, key)]) sid = some key := by
  have hf : st.find? (fun p => decide (p.1 = sid)) = none := by
    rcases hc : st.find? (fun p => decide (p.1 = sid)) with _ | p
    · exact hc
    · rw [storeLookup, hc] at h
      simp at h
  rw [storeLookup, List.find?_append, hf]
  simp

/-- Claim C8 (confirmed): `verify_and_pin_ephemeral_key` inserts and succeeds
when no entry exists for the sender, succeeds leaving the store untouched
when the existing entry equals the candidate byte for byte, and fails with
the ephemeral-key-mismatch error leaving the store untouched when the
existing entry differs. -/
theorem c8_verify_and_pin (st : EphemeralKeyStore) (sid : String) (key : Bytes) :
    (storeLookup st sid = none →
      verify_and_pin_ephemeral_key st sid key = (Except.ok (), st ++ [(sid, key)]) ∧
      storeLookup (verify_and_pin_ephemeral_key st sid key).2 sid = some key) ∧
    (storeLookup st sid = some key →
      verify_and_pin_ephemeral_key st sid key = (Except.ok (), st)) ∧
    (∀ stored, storeLookup st sid = some stored → stored ≠ key →
      verify_and_pin_ephemeral_key st sid key =
        (Except.error EphError.ephemeralKeyMismatch, st)) := by
  refine ⟨fun h => ⟨?_, ?_⟩, fun h => ?_, fun stored h hne => ?_⟩
  · simp only [verify_and_pin_ephemeral_key, h]
  · simp only [verify_and_pin_ephemeral_key, h]
    exact storeLookup_append_self st sid key h
  · simp [verify_and_pin_ephemeral_key, h]
  · simp [verify_and_pin_ephemeral_key, h, hne]

/-- Witness for C8 at a concrete input: the empty store pins the first key
seen for sender "a". -/
theorem c8_verify_and_pin_witness :
    storeLookup [] "a" = none ∧
    verify_and_pin_ephemeral_key [] "a" [1] = (Except.ok (), [] ++ [("a", [1])]) :=
  ⟨by decide, ((c8_verify_and_pin [] "a" [1]).1 (by decide)).1⟩

/-- Helper: `get_recv_message_key` leaves the session untouched whenever it
fails (its two error exits fire before any mutation). -/
theorem get_recv_error_state (P : Prims) (s : EnhancedHybridRatchet) (n : Nat)
    (e : RatchetError) (h : (get_recv_message_key P s n).1 = Except.error e) :
    (get_recv_message_key P s n).2 = s := by
  rcases hck : s.recv_chain_key with _ | ck
  · simp [get_recv_message_key, hck]
  · by_cases hskip : s.max_skip < n - (s.recv_counter + 1)
    · simp [get_recv_message_key, hck, hskip]
    · exfalso
      simp [get_recv_message_key, hck, hskip] at h

/-- Claim C3 amended: `decrypt` failures at the MAC check, the replay check,
the missing-receive-chain check and the skip-limit check leave the session
exactly unchanged; the claim fails only for the AEAD stage (and the
too-short-ciphertext guard), which runs after the cache removal and the
forward chain walk have already mutated the session. -/
theorem c3_amended (P : Prims) (s : EnhancedHybridRatchet) (m : RatchetMessage)
    (ad : Bytes) (e : RatchetError)
    (h1 : (EnhancedHybridRatchet.decrypt P s m ad).1 = Except.error e)
    (h2 : e = RatchetError.macVerificationFailed ∨ e = RatchetError.replayDetected ∨
          e = RatchetError.noRecvChain ∨ e = RatchetError.tooManySkipped) :
    (EnhancedHybridRatchet.decrypt P s m ad).2 = s := by
  by_cases hmac : m.mac = compute_mac P s.root_key (serHeader m.header) m.ciphertext
  · by_cases hrep : m.header.message_number ≤ s.recv_counter
    · simp [EnhancedHybridRatchet.decrypt, hmac, hrep]
    · rcases hrem : assocRemove s.skipped_keys ⟨0, m.header.message_number⟩ with _ | hit
      · rcases hg : (get_recv_message_key P s m.header.message_number).1 with e' | mk
        · simp [EnhancedHybridRatchet.decrypt, hmac, hrep, hrem, hg,
                get_recv_error_state P s m.header.message_number e' hg]
        · exfalso
          simp [EnhancedHybridRatchet.decrypt, hmac, hrep, hrem, hg] at h1
          rcases h2 with rfl | rfl | rfl | rfl <;> split at h1 <;>
            ((try split at h1) <;> simp at h1)
      · exfalso
        simp [EnhancedHybridRatchet.decrypt, hmac, hrep, hrem] at h1
        rcases h2 with rfl | rfl | rfl | rfl <;> split at h1 <;>
          ((try split at h1) <;> simp at h1)
  · simp [EnhancedHybridRatchet.decrypt, hmac]

/-- Witness for the amended C3 at a concrete input: a replayed envelope with
a valid MAC leaves the receiver state unchanged. -/
theorem c3_amended_witness :
    (EnhancedHybridRatchet.decrypt toyPrims recv0 mReplay []).1 =
      Except.error RatchetError.replayDetected ∧
    (EnhancedHybridRatchet.decrypt toyPrims recv0 mReplay []).2 = recv0 :=
  ⟨by decide,
   c3_amended toyPrims recv0 mReplay [] RatchetError.replayDetected (by decide)
     (Or.inr (Or.inl rfl))⟩

/-- Helper: with an empty skipped-key cache and no receive chain key,
`decrypt` can never return a plaintext: it stops at the MAC check, the
replay check, or the missing-receive-chain check. -/
theorem decrypt_no_chain_fails (P : Prims) (s : EnhancedHybridRatchet)
    (m : RatchetMessage) (ad : Bytes) (h1 : s.skipped_keys = [])
    (h2 : s.recv_chain_key = none) :
    ((EnhancedHybridRatchet.decrypt P s m ad).1).isOk = false := by
  by_cases hmac : m.mac = compute_mac P s.root_key (serHeader m.header) m.ciphertext
  · by_cases hrep : m.header.message_number ≤ s.recv_counter
    · simp [EnhancedHybridRatchet.decrypt, hmac, hrep, Except.isOk, Except.toBool]
    · simp [EnhancedHybridRatchet.decrypt, hmac, hrep, h1, h2, assocRemove,
            get_recv_message_key, Except.isOk, Except.toBool]
  · simp [EnhancedHybridRatchet.decrypt, hmac, Except.isOk, Except.toBool]

/-- Claim C4 amended: after `mark_compromised` every `encrypt` fails and
every `decrypt` fails — but with the generic not-ready respectively
MAC/replay/no-receive-chain errors (the code has no `SessionCompromised`
variant at all), and the state is terminal only as long as no ratchet step is
invoked: `dh_ratchet` (see the counterexample) moves the session back to
`Active`. -/
theorem c4_amended (P : Prims) (s : EnhancedHybridRatchet) (pt ad nonce : Bytes)
    (ts : Nat) (m : RatchetMessage) :
    (EnhancedHybridRatchet.encrypt P (mark_compromised s) pt ad nonce ts).1 =
      Except.error RatchetError.ratchetNotReady ∧
    ((EnhancedHybridRatchet.decrypt P (mark_compromised s) m ad).1).isOk = false := by
  constructor
  · simp [EnhancedHybridRatchet.encrypt, mark_compromised]
  · exact decrypt_no_chain_fails P (mark_compromised s) m ad rfl rfl

/-- Claim C5 amended: a successful `initialize_sender` (from `Uninitialized`)
creates the first send chain key but leaves the session in state
`Initialized` — not `Active` or `KeyExchanged` — so every following encrypt
call fails with the ratchet-not-ready error until a DH ratchet step runs. -/
theorem c5_amended (P : Prims) (s : EnhancedHybridRatchet)
    (ss rdh rpq fsk pqs : Bytes) (h : s.state = RatchetState.Uninitialized) :
    (initialize_sender P s ss rdh rpq fsk pqs).1 = Except.ok () ∧
    (initialize_sender P s ss rdh rpq fsk pqs).2.state = RatchetState.Initialized ∧
    (initialize_sender P s ss rdh rpq fsk pqs).2.send_chain_key.isSome = true ∧
    ∀ pt ad nonce ts,
      (EnhancedHybridRatchet.encrypt P (initialize_sender P s ss rdh rpq fsk pqs).2
          pt ad nonce ts).1 = Except.error RatchetError.ratchetNotReady := by
  refine ⟨?_, ?_, ?_, fun pt ad nonce ts => ?_⟩ <;>
    simp [initialize_sender, EnhancedHybridRatchet.encrypt, h]

/-- Witness for the amended C5 at a concrete input. -/
theorem c5_amended_witness :
    (initialize_sender toyPrims EnhancedHybridRatchet.new ssA bobDhPk bobPqPk
        aliceDhSk pqSharedA).2.state = RatchetState.Initialized :=
  (c5_amended toyPrims EnhancedHybridRatchet.new ssA bobDhPk bobPqPk aliceDhSk
    pqSharedA rfl).2.1

/-- Claim C6 amended: the header's `dh_public_key` field produced by
`encrypt` is not restricted to ratchet-step messages — it equals
`dh_send_key.map (fun sk => dh(sk, [9u8; 32]))`, so it is `Some` on every
message encrypted while a DH send key exists (every message after
initialization), and the embedded bytes are a Diffie-Hellman output against
the constant 9-filled array rather than the sender's actual public key. -/
theorem c6_amended (P : Prims) (s : EnhancedHybridRatchet) (pt ad nonce : Bytes)
    (ts : Nat) (m : RatchetMessage) (s1 : EnhancedHybridRatchet)
    (h : EnhancedHybridRatchet.encrypt P s pt ad nonce ts = (Except.ok m, s1)) :
    m.header.dh_public_key = s.dh_send_key.map (fun sk => P.dh sk (List.replicate 32 9)) := by
  by_cases hst : s.state ≠ RatchetState.Active ∧ s.state ≠ RatchetState.KeyExchanged
  · simp [EnhancedHybridRatchet.encrypt, hst] at h
  · rcases hck : s.send_chain_key with _ | ck
    · simp [EnhancedHybridRatchet.encrypt, get_send_message_key, hst, hck] at h
    · simp [EnhancedHybridRatchet.encrypt, get_send_message_key, hst, hck] at h
      rcases h with ⟨hm, hs⟩
      subst hm
      rfl

/-- Witness for the amended C6 at a concrete input: the envelope encrypted
from the active concrete session carries exactly the mapped DH send key. -/
theorem c6_amended_witness :
    msgA.header.dh_public_key =
      alice2.dh_send_key.map (fun sk => toyPrims.dh sk (List.replicate 32 9)) :=
  c6_amended toyPrims alice2 helloBytes [] nonceA 1000 msgA encA.2 (by decide)

/-- Claim C9 counterexample: an envelope whose body AEAD-decrypts to the
empty byte string but whose ephemeral signature is invalid makes
`SecureMsg::decrypt` return an error — not hit the `decrypted[0]` index —
so "if the AEAD decryption yields the empty byte string the function
panics" is not true unconditionally. -/
theorem c9_counterexample :
    toyMsgPrims.aeadDec rootD msgEmptyBadSig.nonce msgEmptyBadSig.body = some [] ∧
    (SecureMsg.decrypt toyMsgPrims hr0 msgEmptyBadSig "a" []).1 =
      DecOutcome.err DecError.sigVerifyFailed := by
  refine ⟨by decide, by decide⟩

/-- Claim C9 amended: `SecureMsg::decrypt` returns `Ok` only when the AEAD
decryption of the body yields at least one byte (the dummy flag), and it
reaches the unchecked `decrypted[0]` index — an out-of-bounds panic — exactly
on envelopes whose AEAD decryption is empty and whose signature parsing,
signature verification and pinning checks all pass; when an earlier check
fails it returns an error instead of panicking. -/
theorem c9_amended (P : MsgPrims) (r : HybridRatchet) (msg : SecureMsg)
    (sid : String) (st : EphemeralKeyStore) :
    (∀ o r2 st2, SecureMsg.decrypt P r msg sid st = (DecOutcome.ok o, r2, st2) →
       ∃ d0 rest, P.aeadDec (HybridRatchet.derive_root_key P r2) msg.nonce msg.body =
         some (d0 :: rest)) ∧
    (∀ r1 dr2,
       (match msg.pq_ct with
        | some ct => HybridRatchet.pq_decaps P r ct
        | none => some r) = some r1 →
       P.drRecv r1.dr msg.header = some dr2 →
       P.aeadDec (HybridRatchet.derive_root_key P { r1 with dr := dr2 }) msg.nonce
           msg.body = some [] →
       P.pkParses msg.ephemeral_pk = true →
       P.sigParses msg.ephemeral_sig = true →
       P.dilithiumVerify msg.body msg.ephemeral_sig msg.ephemeral_pk = true →
       (verify_and_pin_ephemeral_key st sid msg.ephemeral_pk).1 = Except.ok () →
       (SecureMsg.decrypt P r msg sid st).1 = DecOutcome.indexOutOfBounds) := by
  constructor
  · intro o r2 st2 h
    rcases hpq : (match msg.pq_ct with
                  | some ct => HybridRatchet.pq_decaps P r ct
                  | none => some r) with _ | r1
    · simp [SecureMsg.decrypt, hpq] at h
    · rcases hdr : P.drRecv r1.dr msg.header with _ | dr2
      · simp [SecureMsg.decrypt, hpq, hdr] at h
      · rcases haead : P.aeadDec (HybridRatchet.derive_root_key P { r1 with dr := dr2 })
            msg.nonce msg.body with _ | d
        · simp [SecureMsg.decrypt, hpq, hdr, haead] at h
        · by_cases hpk : P.pkParses msg.ephemeral_pk
          · by_cases hsig : P.sigParses msg.ephemeral_sig
            · by_cases hver : P.dilithiumVerify msg.body msg.ephemeral_sig msg.ephemeral_pk
              · rcases hpin : (verify_and_pin_ephemeral_key st sid msg.ephemeral_pk).1 with pe | pu
                · simp [SecureMsg.decrypt, hpq, hdr, haead, hpk, hsig, hver, hpin] at h
                · rcases d with _ | ⟨d0, rest⟩
                  · simp [SecureMsg.decrypt, hpq, hdr, haead, hpk, hsig, hver, hpin] at h
                  · refine ⟨d0, rest, ?_⟩
                    by_cases hd0 : d0 = 0 <;>
                      simp [SecureMsg.decrypt, hpq, hdr, haead, hpk, hsig, hver,
                        hpin, hd0] at h <;>
                      rw [← h.2.1] <;> exact haead
              · simp [SecureMsg.decrypt, hpq, hdr, haead, hpk, hsig, hver] at h
            · simp [SecureMsg.decrypt, hpq, hdr, haead, hpk, hsig] at h
          · simp [SecureMsg.decrypt, hpq, hdr, haead, hpk] at h
  · intro r1 dr2 h1 h2 h3 h4 h5 h6 h7
    simp [SecureMsg.decrypt, h1, h2, h3, h4, h5, h6, h7]

/-- Witness for the amended C9 at a concrete input: an envelope whose AEAD
decryption is empty and whose toy signature is valid drives decrypt into the
out-of-bounds read. -/
theorem c9_amended_witness :
    (SecureMsg.decrypt toyMsgPrims hr0 msgEmptyGoodSig "a" []).1 =
      DecOutcome.indexOutOfBounds :=
  (c9_amended toyMsgPrims hr0 msgEmptyGoodSig "a" []).2 hr0 ([1, 2] ++ [9])
    (by decide) (by decide) (by decide) (by decide) (by decide) (by decide) (by decide)

/-- Claim C10 (confirmed): the envelope returned by `SecureMsg::encrypt`
carries the cover-traffic flag as a cleartext serialized struct field (in
addition to the flag byte placed in front of the plaintext inside the AEAD
body), so for any fixed plaintext, key state and randomness the envelopes for
a dummy and a real message differ in that unencrypted field — distinguishable
without any key material. -/
theorem c10_dummy_flag_in_clear (P : MsgPrims) (r : HybridRatchet)
    (peer_pq_pk identity_sk plaintext nonce : Bytes) (rE1 rE2 rPq : Nat) :
    ((SecureMsg.encrypt P r peer_pq_pk identity_sk plaintext true nonce
        rE1 rE2 rPq).1).is_dummy = true ∧
    ((SecureMsg.encrypt P r peer_pq_pk identity_sk plaintext false nonce
        rE1 rE2 rPq).1).is_dummy = false ∧
    (SecureMsg.encrypt P r peer_pq_pk identity_sk plaintext true nonce
        rE1 rE2 rPq).1 ≠
      (SecureMsg.encrypt P r peer_pq_pk identity_sk plaintext false nonce
        rE1 rE2 rPq).1 ∧
    ((SecureMsg.encrypt P r peer_pq_pk identity_sk plaintext true nonce
        rE1 rE2 rPq).1).body =
      P.aeadEnc
        (HybridRatchet.derive_root_key P
          (SecureMsg.encrypt P r peer_pq_pk identity_sk plaintext true nonce
            rE1 rE2 rPq).2)
        nonce (1 :: plaintext) := by
  refine ⟨rfl, rfl, ?_, rfl⟩
  intro h
  have hbool : (true : Bool) = false := congrArg SecureMsg.is_dummy h
  cases hbool

/-- Witness for C10 at a concrete input. -/
theorem c10_dummy_flag_witness :
    ((SecureMsg.encrypt toyMsgPrims hr0 [3] [0] [42] true nonceD 1 2 3).1).is_dummy = true :=
  (c10_dummy_flag_in_clear toyMsgPrims hr0 [3] [0] [42] nonceD 1 2 3).1

end Qubee
